import Mathlib

/-!
Shallow embedding of the Nevo-Voice-Bot retrieval-and-orchestration core
(`src/lib/knowledge-base.ts`, `src/lib/calculator.ts`, `src/lib/tools.ts`,
and the `POST /api/chat` route), together with theorems settling the
frozen specification claims.

Modelling conventions:
- JavaScript strings are Lean `String`s; `String.prototype.includes` is a
  contiguous-substring test on the character lists.
- JavaScript numbers are exact rationals (`ℚ`); all arithmetic appearing in
  the calculators is modelled exactly.  Lexical scores are `ℕ` (the source
  only ever adds the integer literals 3 and 1 starting from 0).
- `Array.prototype.sort` with comparator `(a, b) => b.score - a.score` is a
  stable descending sort (guaranteed stable since ES2019); any stable sort
  computes the same list, and we use `List.insertionSort` with the relation
  `fun a b => b.2 ≤ a.2`, which places an element before every element of
  equal or smaller score — exactly the stable descending order.
- The knowledge base, loaded once at startup from a JSON snapshot in the
  source, is passed explicitly to every function, following the spec's own
  design note ("model as an explicitly constructed, immutable value ...
  passed into every search call").
-/

namespace Nevo

/-- JavaScript `haystack.includes(needle)` on lists of characters: `true`
iff `needle` occurs contiguously inside `haystack`. -/
def infixOfList (needle : List Char) : List Char → Bool
  | [] => needle.isEmpty
  | c :: cs => needle.isPrefixOf (c :: cs) || infixOfList needle cs

/-- JavaScript `hay.includes(needle)` for strings. -/
def strIncludes (hay needle : String) : Bool :=
  infixOfList needle.data hay.data

/-- JavaScript `s.toLowerCase()` (the library toLower maps `Char.toLower`
over the characters), written at the character-list level so that the
kernel can evaluate it. -/
def jsToLower (s : String) : String := ⟨s.data.map Char.toLower⟩

/-- JavaScript `s.substring(0, n)`: the first `n` characters. -/
def jsSubstringTo (s : String) (n : Nat) : String := ⟨s.data.take n⟩

/-- Concatenate character lists with a separator between consecutive
pieces. -/
def intercalateChars (sep : List Char) : List (List Char) → List Char
  | [] => []
  | [x] => x
  | x :: xs => x ++ sep ++ intercalateChars sep xs

/-- JavaScript `array.join(sep)` (the library intercalate). -/
def jsJoin (sep : String) (xs : List String) : String :=
  ⟨intercalateChars sep.data (xs.map String.data)⟩

/-- Split a character list at every whitespace character, keeping the
(possibly empty) pieces between split points — the behaviour of splitting
a string at each whitespace character. -/
def splitWs (acc : List Char) : List Char → List (List Char)
  | [] => [acc.reverse]
  | c :: cs =>
    if c.isWhitespace then acc.reverse :: splitWs [] cs
    else splitWs (c :: acc) cs

/-- One character of `.replace(/[^a-z0-9\s]/g, ' ')` applied after
`.toLowerCase()`: characters outside `[a-z0-9]` and whitespace become a
space. -/
def sanitizeChar (c : Char) : Char :=
  if (('a' ≤ c ∧ c ≤ 'z') ∨ ('0' ≤ c ∧ c ≤ '9')) ∨ c.isWhitespace then c else ' '

/-- `tokenize` from `knowledge-base.ts`: lower-case, replace characters
outside `[a-z0-9\s]` by spaces, split on whitespace, keep tokens of length
`> 2`.  (JS `split(/\s+/)` and splitting at every whitespace character
differ only in empty tokens, which the length filter removes.) -/
def tokenize (text : String) : List String :=
  ((splitWs [] ((jsToLower text).data.map sanitizeChar)).map
    (fun cs => String.mk cs)).filter (fun t => 2 < t.data.length)

/-- `scoreMatch` from `knowledge-base.ts`: for each query token, +3 when
some keyword contains the token or the token contains the keyword, and
+1 more when the lower-cased item text contains the token. -/
def scoreMatch (itemKeywords : List String) (itemText : String)
    (queryTokens : List String) : Nat :=
  let lowerText := jsToLower itemText
  queryTokens.foldl (fun score token =>
    let score := if itemKeywords.any (fun kw =>
        strIncludes kw token || strIncludes token kw) then score + 3 else score
    if strIncludes lowerText token then score + 1 else score) 0

/-- Spec-side restatement of the scoring contract (§4.1 of the spec): the
score is the sum, over all query tokens, of 3 points for a keyword match in
either direction plus 1 point for a full-text substring hit. -/
def scoreSpec (itemKeywords : List String) (itemText : String)
    (queryTokens : List String) : Nat :=
  (queryTokens.map (fun token =>
    (if itemKeywords.any (fun kw =>
        strIncludes kw token || strIncludes token kw) then 3 else 0) +
    (if strIncludes (jsToLower itemText) token then 1 else 0))).sum

-- ─── Data model (types.ts) ───────────────────────────────

/-- `Article` from `types.ts` (the `sections` sub-records are title/preview
string pairs). -/
structure Article where
  id : String
  title : String
  category : String
  slug : String
  keywords : List String
  sections : List (String × String)
  chunks : List String
  fullContent : String
deriving DecidableEq

/-- `Policy` from `types.ts` (the opaque `raw` JSON blob is untouched by
every modelled function and is omitted). -/
structure Policy where
  id : String
  name : String
  insurerName : String
  insurerId : String
  category : String
  description : String
  summary : String
  keywords : List String
deriving DecidableEq

/-- `Insurer` from `types.ts`. -/
structure Insurer where
  id : String
  name : String
  shortName : String
  type : String
  renewalLink : String
deriving DecidableEq

/-- `ClaimsGuide` from `types.ts`. -/
structure ClaimsGuide where
  id : String
  title : String
  category : String
  content : String
  keywords : List String
deriving DecidableEq

/-- The corpus snapshot (`KnowledgeBase` from `types.ts`): metadata,
`companyInfo` and `calculatorInfo` are never read by the functions under
verification and are omitted. -/
structure KnowledgeBase where
  articles : List Article
  policies : List Policy
  insurers : List Insurer
  claimsGuides : List ClaimsGuide
deriving DecidableEq

-- ─── Collection search (knowledge-base.ts) ───────────────

/-- Stable descending comparison used to model
`.sort((a, b) => b.score - a.score)` on `(document, score)` pairs. -/
def scoreDescRel (a b : α × Nat) : Prop := b.2 ≤ a.2

instance : DecidableRel (@scoreDescRel α) := fun a b => Nat.decLe b.2 a.2

/-- The shared tail of each search function:
`.filter(s => s.score > 0).sort((a, b) => b.score - a.score).slice(0, maxResults).map(s => s.item)`.
`List.insertionSort scoreDescRel` is a stable descending sort, which is what
ES2019 `Array.prototype.sort` guarantees for this comparator. -/
def rankPipeline (scored : List (α × Nat)) (maxResults : Nat) : List α :=
  (((scored.filter (fun s => 0 < s.2)).insertionSort scoreDescRel).take
    maxResults).map Prod.fst

/-- The text an article is scored against:
`article.title + ' ' + article.chunks.join(' ').substring(0, 500)`. -/
def articleScoreText (a : Article) : String :=
  a.title ++ " " ++ jsSubstringTo (jsJoin " " a.chunks) 500

/-- The score `searchArticles` computes for one article. -/
def articleScore (query : String) (a : Article) : Nat :=
  scoreMatch a.keywords (articleScoreText a) (tokenize query)

/-- `searchArticles` from `knowledge-base.ts`. -/
def searchArticles (kb : KnowledgeBase) (query : String)
    (category : Option String) (maxResults : Nat) : List Article :=
  let articles : List Article := match category with
    | some c => kb.articles.filter (fun a => a.category == c)
    | none => kb.articles
  rankPipeline (articles.map (fun a => (a, articleScore query a))) maxResults

/-- The text a policy is scored against: `policy.name + ' ' + policy.summary`. -/
def policyScoreText (p : Policy) : String :=
  p.name ++ " " ++ p.summary

/-- The score `searchPolicies` computes for one policy. -/
def policyScore (query : String) (p : Policy) : Nat :=
  scoreMatch p.keywords (policyScoreText p) (tokenize query)

/-- `searchPolicies` from `knowledge-base.ts`. -/
def searchPolicies (kb : KnowledgeBase) (query : String)
    (category insurerName : Option String) (maxResults : Nat) : List Policy :=
  let policies : List Policy := match category with
    | some c => kb.policies.filter (fun p => p.category == c)
    | none => kb.policies
  let policies : List Policy := match insurerName with
    | some ins =>
      let lowerInsurer := jsToLower ins
      policies.filter (fun p =>
        strIncludes (jsToLower p.insurerName) lowerInsurer ||
        strIncludes (jsToLower p.insurerId) lowerInsurer)
    | none => policies
  rankPipeline (policies.map (fun p => (p, policyScore query p))) maxResults

/-- The text a claims guide is scored against:
`guide.title + ' ' + guide.content.substring(0, 500)`. -/
def guideScoreText (g : ClaimsGuide) : String :=
  g.title ++ " " ++ jsSubstringTo g.content 500

/-- The score `searchClaimsGuides` computes for one guide. -/
def guideScore (query : String) (g : ClaimsGuide) : Nat :=
  scoreMatch g.keywords (guideScoreText g) (tokenize query)

/-- `searchClaimsGuides` from `knowledge-base.ts`; its result cap is the
fixed literal `3` (`.slice(0, 3)`). -/
def searchClaimsGuides (kb : KnowledgeBase) (query : String)
    (category : Option String) : List ClaimsGuide :=
  let guides : List ClaimsGuide := match category with
    | some c => kb.claimsGuides.filter (fun g => g.category == c)
    | none => kb.claimsGuides
  rankPipeline (guides.map (fun g => (g, guideScore query g))) 3

/-- `getPolicyById` from `knowledge-base.ts`. -/
def getPolicyById (kb : KnowledgeBase) (policyId : String) : Option Policy :=
  kb.policies.find? (fun p => p.id == policyId)

/-- `getPoliciesByInsurer` from `knowledge-base.ts`. -/
def getPoliciesByInsurer (kb : KnowledgeBase) (insurerName : String) : List Policy :=
  let lower := jsToLower insurerName
  kb.policies.filter (fun p =>
    strIncludes (jsToLower p.insurerName) lower ||
    strIncludes (jsToLower p.insurerId) lower)

/-- `comparePolicies` from `knowledge-base.ts`: `.map(find).filter(defined)`
is `filterMap`. -/
def comparePolicies (kb : KnowledgeBase) (policyIds : List String) : List Policy :=
  policyIds.filterMap (fun i =>
    kb.policies.find? (fun p =>
      p.id == i || strIncludes (jsToLower p.name) (jsToLower i)))

/-- `getInsurer` from `knowledge-base.ts`. -/
def getInsurer (kb : KnowledgeBase) (name : String) : Option Insurer :=
  let lower := jsToLower name
  kb.insurers.find? (fun i =>
    strIncludes (jsToLower i.name) lower ||
    strIncludes (jsToLower i.shortName) lower ||
    strIncludes (jsToLower i.id) lower)

-- ─── Context builder (knowledge-base.ts buildContext) ────

/-- `buildContext` from `knowledge-base.ts`: the `parts` array built by the
sequence of `push` calls is the concatenation of the three conditional
section blocks, joined with `'\n'`. -/
def buildContext (kb : KnowledgeBase) (query : String) : String :=
  let articles := searchArticles kb query none 2
  let policies := searchPolicies kb query none none 3
  let claims := searchClaimsGuides kb query none
  let parts : List String :=
    (if articles.length > 0 then
      "=== RELEVANT ARTICLES ===" :: articles.map (fun article =>
        "\n--- " ++ article.title ++ " (" ++ article.category ++ ") ---\n" ++
          jsJoin "\n\n" (article.chunks.take 2))
     else []) ++
    (if policies.length > 0 then
      "\n=== RELEVANT POLICIES ===" :: policies.map (fun policy =>
        "\n--- " ++ policy.name ++ " by " ++ policy.insurerName ++ " ---\n" ++
          policy.summary)
     else []) ++
    (if claims.length > 0 then
      "\n=== CLAIMS GUIDANCE ===" :: claims.map (fun guide =>
        "\n--- " ++ guide.title ++ " ---\n" ++ jsSubstringTo guide.content 1500)
     else [])
  jsJoin "\n" parts

-- ─── Calculators (calculator.ts) ─────────────────────────

/-- JavaScript `Math.round`: round half toward positive infinity. -/
def jsRound (q : ℚ) : ℤ := ⌊q + 1/2⌋

/-- `HealthCalcInput` from `types.ts`; JS numbers modelled as exact
rationals, the `city_tier` union type as a string (the source indexes
`CITY_MULTIPLIERS` with it unchecked and falls back to `1.0`). -/
structure HealthCalcInput where
  city_tier : String
  family_members : List ℚ
  has_preexisting : Bool
  corporate_cover : ℚ
  monthly_income : ℚ
deriving DecidableEq

/-- The `estimated_premium_range` sub-record. -/
structure PremiumRange where
  min : ℤ
  max : ℤ
deriving DecidableEq

/-- `HealthCalcResult` from `types.ts`.  The `reasoning` field — a list of
presentation strings interpolating `toFixed`-formatted numbers — is a pure
function of the same inputs, is inspected by no claim, and is omitted
because JS float formatting is not reproducible exactly. -/
structure HealthCalcResult where
  recommended_cover_lakhs : ℚ
  base_plan_lakhs : ℚ
  super_topup_lakhs : ℚ
  coverage_gap_lakhs : ℚ
  estimated_premium_range : PremiumRange
deriving DecidableEq

/-- `CITY_MULTIPLIERS` from `calculator.ts`; `none` models the `undefined`
of an object lookup at an unknown key. -/
def cityMultipliers (tier : String) : Option ℚ :=
  if tier == "metro" then some (3/2)
  else if tier == "tier1" then some (6/5)
  else if tier == "tier2" then some 1
  else none

/-- `AGE_RISK_FACTOR` from `calculator.ts`. -/
def ageRiskFactor (group : String) : Option ℚ :=
  if group == "child" then some (1/2)
  else if group == "young" then some (4/5)
  else if group == "middle" then some (6/5)
  else if group == "senior" then some (9/5)
  else if group == "elderly" then some (5/2)
  else none

/-- `getAgeGroup` from `calculator.ts`. -/
def getAgeGroup (age : ℚ) : String :=
  if age ≤ 18 then "child"
  else if age ≤ 35 then "young"
  else if age ≤ 50 then "middle"
  else if age ≤ 65 then "senior"
  else "elderly"

/-- `Math.max(...ages)`: `none` for the empty spread, whose JS value is
`-Infinity` — below every finite bound, hence in the `child` bucket of
`getAgeGroup`, which is how `calculateHealthCoverage` consumes it. -/
def maxAge? : List ℚ → Option ℚ
  | [] => none
  | a :: as => some (as.foldl max a)

/-- `calculateHealthCoverage` from `calculator.ts`.  `input.corporate_cover
|| 0` is the identity on every rational (only `0`, which is its own
default, and the unmodelled `NaN` are falsy). -/
def calculateHealthCoverage (input : HealthCalcInput) : HealthCalcResult :=
  let cityMultiplier : ℚ := (cityMultipliers input.city_tier).getD 1
  let baseCost : ℚ := 500000 * cityMultiplier
  let ageGroup : String := match maxAge? input.family_members with
    | some a => getAgeGroup a
    | none => "child"
  let ageRisk : ℚ := (ageRiskFactor ageGroup).getD 1
  let baseCost := baseCost * ageRisk
  let baseCost := if input.has_preexisting then baseCost * (7/5) else baseCost
  let projected := baseCost * (1 + 1/10) ^ 10
  let familyFactor : ℚ := 1 + ((input.family_members.length : ℚ) - 1) * (3/20)
  let totalNeed := projected * familyFactor
  let recommendedLakhs : ℚ := ((⌈totalNeed / 500000⌉ * 5 : ℤ) : ℚ)
  let corporateLakhs := input.corporate_cover
  let gapLakhs : ℚ := max 0 (recommendedLakhs - corporateLakhs)
  let basePlan : ℚ := min gapLakhs 25
  let superTopup : ℚ := max 0 (gapLakhs - basePlan)
  let basePlan : ℚ := if 25 < gapLakhs then 15 else basePlan
  let superTopup : ℚ := if 25 < gapLakhs then gapLakhs - basePlan else superTopup
  let premiumBase := basePlan * 800 * ageRisk
  let premiumMax := premiumBase * (3/2)
  { recommended_cover_lakhs := recommendedLakhs
    base_plan_lakhs := basePlan
    super_topup_lakhs := superTopup
    coverage_gap_lakhs := gapLakhs
    estimated_premium_range := { min := jsRound premiumBase, max := jsRound premiumMax } }

/-- `TermCalcInput` from `types.ts`. -/
structure TermCalcInput where
  monthly_expenses : ℚ
  annual_income : ℚ
  total_debts : ℚ
  num_children : ℚ
  education_goal_per_child : ℚ
  existing_life_cover : ℚ
  current_age : ℚ
  retirement_age : ℚ
deriving DecidableEq

/-- `TermCalcResult` from `types.ts` (again without the presentation-only
`reasoning` strings). -/
structure TermCalcResult where
  recommended_cover_cr : ℚ
  income_replacement : ℚ
  debt_cover : ℚ
  education_fund : ℚ
  total_need : ℚ
  gap : ℚ
  recommended_tenure : ℚ
  estimated_premium_range : PremiumRange
deriving DecidableEq

/-- `calculateTermCoverage` from `calculator.ts`.  `input.existing_life_cover
|| 0` is the identity on every rational. -/
def calculateTermCoverage (input : TermCalcInput) : TermCalcResult :=
  let yearsToRetirement : ℚ := max 1 (input.retirement_age - input.current_age)
  let multiplier : ℚ := min 15 (max 10 (yearsToRetirement * (1/2)))
  let incomeReplacement := input.annual_income * multiplier
  let debtCover := input.total_debts
  let educationFund := input.num_children * input.education_goal_per_child
  let totalNeed := incomeReplacement + debtCover + educationFund
  let existingCover := input.existing_life_cover
  let gap : ℚ := max 0 (totalNeed - existingCover)
  let recommendedCr : ℚ := ((⌈gap / 2500000⌉ : ℤ) : ℚ) * (1/4)
  let recommendedTenure : ℚ :=
    min 40 (max 20 (input.retirement_age - input.current_age + 5))
  let ageFactor : ℚ :=
    if input.current_age ≤ 30 then 1
    else if input.current_age ≤ 40 then 3/2
    else 11/5
  let coverLakhs := recommendedCr * 100
  let premiumMin := jsRound (coverLakhs * 500 * ageFactor)
  let premiumMax := jsRound (coverLakhs * 750 * ageFactor)
  { recommended_cover_cr := recommendedCr
    income_replacement := incomeReplacement
    debt_cover := debtCover
    education_fund := educationFund
    total_need := totalNeed
    gap := gap
    recommended_tenure := recommendedTenure
    estimated_premium_range := { min := premiumMin, max := premiumMax } }

-- ─── Capability registry (tools.ts) ──────────────────────

/-- The raw parameter payload of a capability invocation
(`Record<string, unknown>` in the source): every parameter any dispatch
branch reads, each optional, typed as the catalog schema declares it.
An absent field is `none`. -/
structure ToolInput where
  query : Option String := none
  category : Option String := none
  insurer_name : Option String := none
  policy_identifiers : Option (List String) := none
  city_tier : Option String := none
  family_members : Option (List ℚ) := none
  has_preexisting : Option Bool := none
  corporate_cover : Option ℚ := none
  monthly_income : Option ℚ := none
  annual_income : Option ℚ := none
  monthly_expenses : Option ℚ := none
  total_debts : Option ℚ := none
  num_children : Option ℚ := none
  education_goal_per_child : Option ℚ := none
  existing_life_cover : Option ℚ := none
  current_age : Option ℚ := none
  retirement_age : Option ℚ := none
  insurance_type : Option String := none
  reason : Option String := none
deriving DecidableEq

/-- JavaScript `x || d` for an optionally-present number: `undefined`, and
the falsy value `0`, both yield the default. -/
def jsOrNum (x : Option ℚ) (d : ℚ) : ℚ :=
  match x with
  | some q => if q = 0 then d else q
  | none => d

/-- JavaScript `x || d` for an optionally-present string: `undefined` and
the falsy empty string both yield the default. -/
def jsOrString (x : Option String) (d : String) : String :=
  match x with
  | some s => if s = "" then d else s
  | none => d

/-- JavaScript `x || d` for an optionally-present boolean. -/
def jsOrBool (x : Option Bool) (d : Bool) : Bool :=
  match x with
  | some b => b || d
  | none => d

/-- JavaScript `x || d` for an optionally-present array (every array,
including `[]`, is truthy). -/
def jsOrList (x : Option (List α)) (d : List α) : List α :=
  x.getD d

/-- The parameter coercion the `calculate_health_coverage` dispatch branch
of `executeTool` performs before calling `calculateHealthCoverage`. -/
def healthInputOfTool (toolInput : ToolInput) : HealthCalcInput :=
  { city_tier := jsOrString toolInput.city_tier "metro"
    family_members := jsOrList toolInput.family_members [30]
    has_preexisting := jsOrBool toolInput.has_preexisting false
    corporate_cover := jsOrNum toolInput.corporate_cover 0
    monthly_income := jsOrNum toolInput.monthly_income 0 }

/-- The parameter coercion the `calculate_term_coverage` dispatch branch of
`executeTool` performs before calling `calculateTermCoverage`. -/
def termInputOfTool (toolInput : ToolInput) : TermCalcInput :=
  { annual_income := jsOrNum toolInput.annual_income 0
    monthly_expenses := jsOrNum toolInput.monthly_expenses 0
    total_debts := jsOrNum toolInput.total_debts 0
    num_children := jsOrNum toolInput.num_children 0
    education_goal_per_child := jsOrNum toolInput.education_goal_per_child 2500000
    existing_life_cover := jsOrNum toolInput.existing_life_cover 0
    current_age := jsOrNum toolInput.current_age 30
    retirement_age := jsOrNum toolInput.retirement_age 60 }

/-- Canonical rendering standing in for `JSON.stringify(result, null, 2)` of
a health result.  Exact JS number/JSON formatting is deliberately not
reproduced (IEEE-double decimal formatting); no claim inspects this text. -/
def healthResultString (r : HealthCalcResult) : String :=
  "recommended_cover_lakhs: " ++ toString r.recommended_cover_lakhs ++
  "\nbase_plan_lakhs: " ++ toString r.base_plan_lakhs ++
  "\nsuper_topup_lakhs: " ++ toString r.super_topup_lakhs ++
  "\ncoverage_gap_lakhs: " ++ toString r.coverage_gap_lakhs ++
  "\nestimated_premium_range: " ++ toString r.estimated_premium_range.min ++
  " - " ++ toString r.estimated_premium_range.max

/-- Canonical rendering standing in for `JSON.stringify(result, null, 2)` of
a term result; same caveat as `healthResultString`. -/
def termResultString (r : TermCalcResult) : String :=
  "recommended_cover_cr: " ++ toString r.recommended_cover_cr ++
  "\nincome_replacement: " ++ toString r.income_replacement ++
  "\ndebt_cover: " ++ toString r.debt_cover ++
  "\neducation_fund: " ++ toString r.education_fund ++
  "\ntotal_need: " ++ toString r.total_need ++
  "\ngap: " ++ toString r.gap ++
  "\nrecommended_tenure: " ++ toString r.recommended_tenure ++
  "\nestimated_premium_range: " ++ toString r.estimated_premium_range.min ++
  " - " ++ toString r.estimated_premium_range.max

/-- The booking-link configuration the `book_consultation` branch reads:
`process.env.NEXT_PUBLIC_BOOKING_URL`. -/
structure Env where
  NEXT_PUBLIC_BOOKING_URL : Option String := none

/-- Canonical rendering standing in for the `JSON.stringify` literal the
`book_consultation` branch returns; field order and contents as in the
source. -/
def bookingString (bookingUrl reason : String) : String :=
  "message: Book a free consultation with NYVO insurance advisors" ++
  "\nbookingUrl: " ++ bookingUrl ++
  "\nreason: " ++ reason ++
  "\nphone: +91 99000 91495" ++
  "\nwhatsapp: +91 99000 91495" ++
  "\nemail: hello@nyvo.in"

/-- The names of the eight registered capabilities, in catalog order
(`TOOLS` in `tools.ts`; the JSON parameter schemas are metadata presented to
the reasoning engine and play no role in dispatch, which matches only on the
name). -/
def toolNames : List String :=
  ["search_insurance_knowledge", "search_policies", "compare_policies",
   "calculate_health_coverage", "calculate_term_coverage",
   "get_claims_guidance", "get_insurer_details", "book_consultation"]

/-- `executeTool` from `tools.ts`.  String parameters the source casts with
`as string` and passes to functions that would throw on `undefined` are
modelled with an empty-string default (no claim exercises that path); truly
optional parameters pass through as `Option`. -/
def executeTool (kb : KnowledgeBase) (env : Env) (toolName : String)
    (toolInput : ToolInput) : String :=
  if toolName == "search_insurance_knowledge" then
    let articles := searchArticles kb (toolInput.query.getD "") toolInput.category 3
    if articles.length == 0 then
      "No articles found for this query. Try rephrasing or ask me directly."
    else
      jsJoin "\n\n---\n\n" (articles.map (fun a =>
        "📄 " ++ a.title ++ " (" ++ a.category ++ ")\n" ++
          jsJoin "\n\n" (a.chunks.take 2)))
  else if toolName == "search_policies" then
    let policies := searchPolicies kb (toolInput.query.getD "") toolInput.category
      toolInput.insurer_name 5
    if policies.length == 0 then
      "No matching policies found. Try a different insurer name or broader query."
    else
      jsJoin "\n\n---\n\n" (policies.map (fun p =>
        "📋 " ++ p.name ++ " by " ++ p.insurerName ++ "\n" ++ p.summary))
  else if toolName == "compare_policies" then
    let ids := toolInput.policy_identifiers.getD []
    let policies := comparePolicies kb ids
    if policies.length < 2 then
      "Could only find " ++ toString policies.length ++
        " of the requested policies. Available policies: " ++
        jsJoin ", " (policies.map (fun p => p.name)) ++
        ". Please check the policy names."
    else
      jsJoin "\n\n=== VS ===\n\n" (policies.map (fun p =>
        "📋 " ++ p.name ++ " by " ++ p.insurerName ++ "\n" ++ p.summary))
  else if toolName == "calculate_health_coverage" then
    healthResultString (calculateHealthCoverage (healthInputOfTool toolInput))
  else if toolName == "calculate_term_coverage" then
    termResultString (calculateTermCoverage (termInputOfTool toolInput))
  else if toolName == "get_claims_guidance" then
    let guides := searchClaimsGuides kb (toolInput.query.getD "") toolInput.insurance_type
    if guides.length == 0 then
      "No specific claims guide found. For general claims support, contact NYVO at +91 99000 91495 or book a consultation."
    else
      jsJoin "\n\n---\n\n" (guides.map (fun g =>
        "📑 " ++ g.title ++ "\n" ++ jsSubstringTo g.content 2000))
  else if toolName == "get_insurer_details" then
    match getInsurer kb (toolInput.insurer_name.getD "") with
    | none =>
      "Insurer \"" ++ toolInput.insurer_name.getD "" ++
        "\" not found. Available insurers include Star Health, HDFC ERGO, ICICI Lombard, Care Health, Niva Bupa, Bajaj Allianz, LIC, Max Life, etc."
    | some insurer =>
      let policies := getPoliciesByInsurer kb insurer.name
      jsJoin "\n"
        ((["🏢 " ++ insurer.name ++ " (" ++ insurer.shortName ++ ")",
           "Type: " ++ insurer.type,
           if insurer.renewalLink != "" then
             "Renewal Portal: " ++ insurer.renewalLink else "",
           if policies.length > 0 then
             "Available Plans: " ++ jsJoin ", "
               (policies.map (fun p => p.name))
           else ""]).filter (fun s => s != ""))
  else if toolName == "book_consultation" then
    let bookingUrl := jsOrString env.NEXT_PUBLIC_BOOKING_URL
      "https://calendar.google.com/calendar/appointments/schedules/AcZssZ0ORrvJhRP3kGcmYIOl5S_BZfb45n3aex1Lt-Yew3wXTkjLhEBhJsJm1bD0BQFH7FZbpKX69Ci"
    bookingString bookingUrl (toolInput.reason.getD "")
  else
    "Unknown tool: " ++ toolName

-- ─── Orchestration loop (POST /api/chat) ─────────────────

/-- One content block of a reasoning-engine response: the route only ever
inspects blocks whose `type` is `'text'` or `'tool_use'`. -/
inductive ContentBlock where
  | text (t : String)
  | toolUse (id name : String) (input : ToolInput)
deriving DecidableEq

/-- A reasoning-engine response: content blocks plus the `stop_reason`
string the loop compares against `'tool_use'`. -/
structure EngineResponse where
  content : List ContentBlock
  stop_reason : String
deriving DecidableEq

/-- One `tool_result` block sent back to the engine (call identifier and
result text). -/
structure ToolResultBlock where
  tool_use_id : String
  content : String
deriving DecidableEq

/-- The content of one conversation message as the route builds it. -/
inductive MessageContent where
  | text (s : String)
  | blocks (bs : List ContentBlock)
  | toolResults (rs : List ToolResultBlock)
deriving DecidableEq

/-- One entry of the `messages` array sent to the engine. -/
structure MessageParam where
  role : String
  content : MessageContent
deriving DecidableEq

/-- One turn of the caller-supplied `conversationHistory`. -/
structure ConversationMessage where
  role : String
  content : String
deriving DecidableEq

/-- `block.type === 'text'` — the text of a text block. -/
def textOf? : ContentBlock → Option String
  | .text t => some t
  | _ => none

/-- `block.type === 'tool_use'` — the name of a tool-use block. -/
def toolNameOf? : ContentBlock → Option String
  | .toolUse _ name _ => some name
  | _ => none

/-- `const maxIterations = 5`. -/
def maxIterations : Nat := 5

/-- The reasoning engine as an opaque collaborator: a function from the
conversation sent to it to its response.  The system string (static prompt,
language directive and the `buildContext` RAG excerpt) is constant across
the rounds of one request and is absorbed into this function. -/
def EngineOracle : Type := List MessageParam → EngineResponse

/-- The `while (response.stop_reason === 'tool_use' && iterations < maxIterations)`
loop of `POST /api/chat`: execute every requested capability through
`executeTool`, append the assistant turn and a turn carrying the tool
results, resubmit, and count the dispatch round.  Returns the final
response together with the final value of the `iterations` counter. -/
def runToolLoop (kb : KnowledgeBase) (env : Env) (engine : EngineOracle)
    (messages : List MessageParam) (response : EngineResponse)
    (iterations : Nat) : EngineResponse × Nat :=
  if h : response.stop_reason = "tool_use" ∧ iterations < maxIterations then
    let toolUseBlocks := response.content.filter (fun b => (toolNameOf? b).isSome)
    let toolResults : List ToolResultBlock := toolUseBlocks.filterMap (fun b =>
      match b with
      | .toolUse id name input => some ⟨id, executeTool kb env name input⟩
      | .text _ => none)
    let messages := messages ++
      [⟨"assistant", .blocks response.content⟩, ⟨"user", .toolResults toolResults⟩]
    runToolLoop kb env engine messages (engine messages) (iterations + 1)
  else
    (response, iterations)
termination_by maxIterations - iterations
decreasing_by simp [maxIterations] at *; omega

/-- The `messages` array of the initial engine request:
`conversationHistory.slice(-10)` converted to message params, followed by
the new user message. -/
def initialMessages (conversationHistory : List ConversationMessage)
    (message : String) : List MessageParam :=
  (conversationHistory.drop (conversationHistory.length - 10)).map
    (fun m => ⟨m.role, .text m.content⟩) ++ [⟨"user", .text message⟩]

/-- What `POST /api/chat` returns to its caller (plus, for verification,
the final value of the loop counter).  The `bookingUrl` regex extraction is
not modelled; no claim concerns it. -/
structure ChatResult where
  message : String
  toolsUsed : List String
  rounds : Nat
deriving DecidableEq

/-- The happy path of `POST /api/chat`: build the initial messages, call
the engine, run the tool-use loop, and join the text blocks of the final
response with newlines. -/
def processChat (kb : KnowledgeBase) (env : Env) (engine : EngineOracle)
    (conversationHistory : List ConversationMessage) (message : String) :
    ChatResult :=
  let messages := initialMessages conversationHistory message
  let response := engine messages
  let final := runToolLoop kb env engine messages response 0
  { message := jsJoin "\n" (final.1.content.filterMap textOf?)
    toolsUsed := final.1.content.filterMap toolNameOf?
    rounds := final.2 }

-- ─── Helper lemmas: the ranking pipeline ─────────────────

instance : IsTotal (α × Nat) scoreDescRel :=
  ⟨fun a b => Nat.le_total b.2 a.2⟩

instance : IsTrans (α × Nat) scoreDescRel :=
  ⟨fun _ _ _ hab hbc => Nat.le_trans hbc hab⟩

theorem filter_orderedInsert_score (s : Nat) (x : α × Nat) (l : List (α × Nat)) :
    (List.orderedInsert scoreDescRel x l).filter (fun p => p.2 == s) =
      if x.2 = s then x :: l.filter (fun p => p.2 == s)
      else l.filter (fun p => p.2 == s) := by
  induction l with
  | nil =>
    by_cases hx : x.2 = s <;>
      simp [List.orderedInsert, List.filter_singleton, hx]
  | cons y ys ih =>
    by_cases hr : scoreDescRel x y
    · by_cases hx : x.2 = s <;>
        simp [List.orderedInsert, hr, List.filter_cons, hx]
    · have hlt : x.2 < y.2 := by
        simp only [scoreDescRel, not_le] at hr
        exact hr
      by_cases hx : x.2 = s
      · have hy : (y.2 == s) = false := by
          simp only [beq_eq_false_iff_ne, ne_eq]
          omega
        simp [List.orderedInsert, hr, List.filter_cons, hy, ih, hx]
      · simp [List.orderedInsert, hr, List.filter_cons, ih, hx]

theorem filter_insertionSort_score (s : Nat) (l : List (α × Nat)) :
    (l.insertionSort scoreDescRel).filter (fun p => p.2 == s) =
      l.filter (fun p => p.2 == s) := by
  induction l with
  | nil => rfl
  | cons x xs ih =>
    rw [List.insertionSort, filter_orderedInsert_score]
    by_cases hx : x.2 = s <;> simp [hx, ih, List.filter_cons]

theorem length_rankPipeline (scored : List (α × Nat)) (m : Nat) :
    (rankPipeline scored m).length ≤ m := by
  simp only [rankPipeline, List.length_map, List.length_take]
  exact Nat.min_le_left _ _

theorem mem_rankPipeline {scored : List (α × Nat)} {m : Nat} {x : α}
    (hx : x ∈ rankPipeline scored m) : ∃ p ∈ scored, p.1 = x ∧ 0 < p.2 := by
  simp only [rankPipeline, List.mem_map] at hx
  obtain ⟨p, hp, hpx⟩ := hx
  have hp' := List.mem_of_mem_take hp
  rw [List.mem_insertionSort, List.mem_filter] at hp'
  exact ⟨p, hp'.1, hpx, by simpa using hp'.2⟩

theorem mem_rankPipeline_map {f : α → Nat} {l : List α} {m : Nat} {x : α}
    (hx : x ∈ rankPipeline (l.map (fun a => (a, f a))) m) :
    x ∈ l ∧ 0 < f x := by
  obtain ⟨p, hp, hpx, hpos⟩ := mem_rankPipeline hx
  simp only [List.mem_map] at hp
  obtain ⟨a, ha, rfl⟩ := hp
  cases hpx
  exact ⟨ha, hpos⟩

theorem snd_eq_of_mem_map {f : α → Nat} {l : List α} {p : α × Nat}
    (hp : p ∈ l.map (fun a => (a, f a))) : p.2 = f p.1 := by
  simp only [List.mem_map] at hp
  obtain ⟨a, _, rfl⟩ := hp
  rfl

theorem rankPipeline_sorted (f : α → Nat) (l : List α) (m : Nat) :
    (rankPipeline (l.map (fun a => (a, f a))) m).Pairwise
      (fun x y => f y ≤ f x) := by
  have hsort : ((l.map (fun a => (a, f a))).filter
      (fun s => 0 < s.2)).insertionSort scoreDescRel |>.Pairwise scoreDescRel :=
    List.sorted_insertionSort scoreDescRel _
  have htake := hsort.sublist (List.take_sublist m _)
  rw [rankPipeline, List.pairwise_map]
  refine htake.imp_of_mem (fun {p q} hp hq hpq => ?_)
  have hp' : p ∈ l.map (fun a => (a, f a)) :=
    List.mem_of_mem_filter ((List.mem_insertionSort _).mp (List.mem_of_mem_take hp))
  have hq' : q ∈ l.map (fun a => (a, f a)) :=
    List.mem_of_mem_filter ((List.mem_insertionSort _).mp (List.mem_of_mem_take hq))
  have hpq' : q.2 ≤ p.2 := hpq
  rw [snd_eq_of_mem_map hp', snd_eq_of_mem_map hq'] at hpq'
  exact hpq'

theorem map_fst_pairing (f : α → Nat) (l : List α) :
    List.map (Prod.fst ∘ fun a => (a, f a)) l = l := by
  induction l with
  | nil => rfl
  | cons x xs ih => simp only [List.map_cons, ih]; rfl

theorem rankPipeline_stable (f : α → Nat) (l : List α) (m s : Nat) :
    List.Sublist ((rankPipeline (l.map (fun a => (a, f a))) m).filter
      (fun a => f a == s)) l := by
  set scored := l.map (fun a => (a, f a)) with hscored
  set u := scored.filter (fun p => 0 < p.2) with hu
  rw [rankPipeline, List.filter_map]
  have hcongr : ((u.insertionSort scoreDescRel).take m).filter
      ((fun a => f a == s) ∘ Prod.fst) =
      ((u.insertionSort scoreDescRel).take m).filter (fun p => p.2 == s) := by
    refine List.filter_congr (fun p hp => ?_)
    have hp' : p ∈ scored :=
      List.mem_of_mem_filter ((List.mem_insertionSort _).mp (List.mem_of_mem_take hp))
    simp [snd_eq_of_mem_map hp']
  rw [hcongr]
  have h1 : List.Sublist
      (((u.insertionSort scoreDescRel).take m).filter (fun p => p.2 == s))
      ((u.insertionSort scoreDescRel).filter (fun p => p.2 == s)) :=
    (List.take_sublist m _).filter _
  rw [filter_insertionSort_score] at h1
  have h2 : List.Sublist (u.filter (fun p => p.2 == s)) scored :=
    (List.filter_sublist _).trans (List.filter_sublist _)
  have h3 := (h1.trans h2).map Prod.fst
  rw [hscored, List.map_map] at h3
  rwa [map_fst_pairing] at h3

-- ─── Helper lemmas: scoring and pools ────────────────────

theorem scoreMatch_foldl_acc (itemKeywords : List String) (lowerText : String)
    (queryTokens : List String) (acc : Nat) :
    queryTokens.foldl (fun score token =>
      let score := if itemKeywords.any (fun kw =>
          strIncludes kw token || strIncludes token kw) then score + 3 else score
      if strIncludes lowerText token then score + 1 else score) acc =
    acc + (queryTokens.map (fun token =>
      (if itemKeywords.any (fun kw =>
          strIncludes kw token || strIncludes token kw) then 3 else 0) +
      (if strIncludes lowerText token then 1 else 0))).sum := by
  induction queryTokens generalizing acc with
  | nil => simp
  | cons t ts ih =>
    simp only [List.foldl_cons, List.map_cons, List.sum_cons]
    rw [ih]
    by_cases h1 : itemKeywords.any (fun kw => strIncludes kw t || strIncludes t kw) <;>
      by_cases h2 : strIncludes lowerText t <;> simp [h1, h2] <;> omega

theorem scoreMatch_as_sum (itemKeywords : List String) (itemText : String)
    (queryTokens : List String) :
    scoreMatch itemKeywords itemText queryTokens =
      scoreSpec itemKeywords itemText queryTokens := by
  unfold scoreMatch scoreSpec
  rw [scoreMatch_foldl_acc]
  simp

/-- The collection `searchArticles` actually ranks: the articles, optionally
restricted to a category. -/
def articlePool (kb : KnowledgeBase) (category : Option String) : List Article :=
  match category with
  | some c => kb.articles.filter (fun a => a.category == c)
  | none => kb.articles

theorem searchArticles_eq (kb : KnowledgeBase) (query : String)
    (category : Option String) (maxResults : Nat) :
    searchArticles kb query category maxResults =
      rankPipeline ((articlePool kb category).map
        (fun a => (a, articleScore query a))) maxResults := rfl

theorem articlePool_sublist (kb : KnowledgeBase) (category : Option String) :
    List.Sublist (articlePool kb category) kb.articles := by
  cases category with
  | none => exact List.Sublist.refl _
  | some c => exact List.filter_sublist _

/-- The collection `searchPolicies` actually ranks: the policies after the
category and insurer filters. -/
def policyPool (kb : KnowledgeBase) (category insurerName : Option String) :
    List Policy :=
  let policies : List Policy := match category with
    | some c => kb.policies.filter (fun p => p.category == c)
    | none => kb.policies
  match insurerName with
  | some ins =>
    let lowerInsurer := jsToLower ins
    policies.filter (fun p =>
      strIncludes (jsToLower p.insurerName) lowerInsurer ||
      strIncludes (jsToLower p.insurerId) lowerInsurer)
  | none => policies

theorem searchPolicies_eq (kb : KnowledgeBase) (query : String)
    (category insurerName : Option String) (maxResults : Nat) :
    searchPolicies kb query category insurerName maxResults =
      rankPipeline ((policyPool kb category insurerName).map
        (fun p => (p, policyScore query p))) maxResults := rfl

theorem policyPool_sublist (kb : KnowledgeBase)
    (category insurerName : Option String) :
    List.Sublist (policyPool kb category insurerName) kb.policies := by
  cases insurerName with
  | none =>
    cases category with
    | none => exact List.Sublist.refl _
    | some c => exact List.filter_sublist _
  | some ins =>
    cases category with
    | none => exact List.filter_sublist _
    | some c => exact (List.filter_sublist _).trans (List.filter_sublist _)

/-- The collection `searchClaimsGuides` actually ranks. -/
def guidePool (kb : KnowledgeBase) (category : Option String) : List ClaimsGuide :=
  match category with
  | some c => kb.claimsGuides.filter (fun g => g.category == c)
  | none => kb.claimsGuides

theorem searchClaimsGuides_eq (kb : KnowledgeBase) (query : String)
    (category : Option String) :
    searchClaimsGuides kb query category =
      rankPipeline ((guidePool kb category).map
        (fun g => (g, guideScore query g))) 3 := rfl

theorem guidePool_sublist (kb : KnowledgeBase) (category : Option String) :
    List.Sublist (guidePool kb category) kb.claimsGuides := by
  cases category with
  | none => exact List.Sublist.refl _
  | some c => exact List.filter_sublist _

-- ─── Concrete fixtures used by witnesses/counterexamples ──

/-- A small concrete article whose keyword matches the query "bonus". -/
def exArticle : Article :=
  ⟨"a1", "No Claim Bonus", "general", "ncb", ["bonus"], [], ["Bonus details here"], ""⟩

/-- A small concrete policy. -/
def exPolicy : Policy :=
  ⟨"p1", "Care Supreme", "Care Health", "care", "health-insurance",
    "desc", "A comprehensive health plan", ["health"]⟩

/-- A small concrete claims guide. -/
def exGuide : ClaimsGuide :=
  ⟨"g1", "Cashless Claims", "health-insurance", "Step one of cashless claims",
    ["cashless"]⟩

/-- A small concrete corpus. -/
def exKb : KnowledgeBase := ⟨[exArticle], [exPolicy], [], [exGuide]⟩

-- ─── Claim theorems ──────────────────────────────────────

/-- **C2**: for every set of document keywords, document text and ordered
sequence of query tokens, the lexical score equals the sum over all query
tokens of 3 points for a keyword substring match in either direction plus
1 additional point when the lower-cased document text contains the token;
the result is a non-negative integer (`ℕ`) with no per-token deduplication
or length normalisation — `scoreSpec` is exactly that per-token sum. -/
theorem scoreMatch_eq_scoreSpec (itemKeywords : List String) (itemText : String)
    (queryTokens : List String) :
    scoreMatch itemKeywords itemText queryTokens =
      scoreSpec itemKeywords itemText queryTokens :=
  scoreMatch_as_sum itemKeywords itemText queryTokens

/-- **C1**: for every collection, query, optional filters and maxResults
bound, each Collection Search function returns at most maxResults documents,
every returned document scored strictly above 0, the results are ordered by
non-increasing score, and documents of equal score appear in their original
collection order (stability: for every score level, the subsequence of the
result carrying that score is a sublist of the original collection). -/
theorem searchFunctions_ranked_bounded_stable (kb : KnowledgeBase)
    (query : String) (catA catP catG insurerName : Option String)
    (maxA maxP : Nat) :
    ((searchArticles kb query catA maxA).length ≤ maxA
      ∧ (∀ a ∈ searchArticles kb query catA maxA, 0 < articleScore query a)
      ∧ (searchArticles kb query catA maxA).Pairwise
          (fun x y => articleScore query y ≤ articleScore query x)
      ∧ ∀ s, List.Sublist ((searchArticles kb query catA maxA).filter
          (fun a => articleScore query a == s)) kb.articles)
    ∧ ((searchPolicies kb query catP insurerName maxP).length ≤ maxP
      ∧ (∀ p ∈ searchPolicies kb query catP insurerName maxP,
          0 < policyScore query p)
      ∧ (searchPolicies kb query catP insurerName maxP).Pairwise
          (fun x y => policyScore query y ≤ policyScore query x)
      ∧ ∀ s, List.Sublist ((searchPolicies kb query catP insurerName maxP).filter
          (fun p => policyScore query p == s)) kb.policies)
    ∧ ((searchClaimsGuides kb query catG).length ≤ 3
      ∧ (∀ g ∈ searchClaimsGuides kb query catG, 0 < guideScore query g)
      ∧ (searchClaimsGuides kb query catG).Pairwise
          (fun x y => guideScore query y ≤ guideScore query x)
      ∧ ∀ s, List.Sublist ((searchClaimsGuides kb query catG).filter
          (fun g => guideScore query g == s)) kb.claimsGuides) := by
  refine ⟨⟨?_, ?_, ?_, ?_⟩, ⟨?_, ?_, ?_, ?_⟩, ⟨?_, ?_, ?_, ?_⟩⟩
  · rw [searchArticles_eq]; exact length_rankPipeline _ _
  · intro a ha; rw [searchArticles_eq] at ha
    exact (mem_rankPipeline_map ha).2
  · rw [searchArticles_eq]; exact rankPipeline_sorted _ _ _
  · intro s; rw [searchArticles_eq]
    exact (rankPipeline_stable _ _ _ _).trans (articlePool_sublist kb catA)
  · rw [searchPolicies_eq]; exact length_rankPipeline _ _
  · intro p hp; rw [searchPolicies_eq] at hp
    exact (mem_rankPipeline_map hp).2
  · rw [searchPolicies_eq]; exact rankPipeline_sorted _ _ _
  · intro s; rw [searchPolicies_eq]
    exact (rankPipeline_stable _ _ _ _).trans (policyPool_sublist kb catP insurerName)
  · rw [searchClaimsGuides_eq]; exact length_rankPipeline _ _
  · intro g hg; rw [searchClaimsGuides_eq] at hg
    exact (mem_rankPipeline_map hg).2
  · rw [searchClaimsGuides_eq]; exact rankPipeline_sorted _ _ _
  · intro s; rw [searchClaimsGuides_eq]
    exact (rankPipeline_stable _ _ _ _).trans (guidePool_sublist kb catG)

/-- Witness for C1: at the concrete corpus `exKb` and query "bonus", the
returned article indeed has positive score and the length bound holds. -/
theorem searchFunctions_ranked_bounded_stable_witness :
    0 < articleScore "bonus" exArticle ∧
      (searchArticles exKb "bonus" none 3).length ≤ 3 :=
  ⟨(searchFunctions_ranked_bounded_stable exKb "bonus" none none none none 3 5).1.2.1
      exArticle (by decide),
   (searchFunctions_ranked_bounded_stable exKb "bonus" none none none none 3 5).1.1⟩

-- ─── C3: substring claim ─────────────────────────────────

/-- An article exhibiting the gap in C3's wording: its keyword `"ab"` is a
strict substring of the query token `"abc"`, but the token appears nowhere
in the keyword or the text. -/
def artC : Article := ⟨"a1", "zzz", "general", "", ["ab"], [], [], ""⟩

/-- A corpus containing only `artC`. -/
def kbC : KnowledgeBase := ⟨[artC], [], [], []⟩

/-- **C3** is false as stated: for the query `"abc"` and the document
`artC`, no token of the query's tokenization appears as a substring in any
of the document's keywords or in its (even lower-cased) text, yet the score
is 3 — the code also awards points when a keyword is a substring of the
token — and the document is returned by the search rather than excluded. -/
theorem substring_claim_counterexample :
    tokenize "abc" = ["abc"] ∧
    strIncludes "ab" "abc" = false ∧
    strIncludes (jsToLower (articleScoreText artC)) "abc" = false ∧
    scoreMatch artC.keywords (articleScoreText artC) (tokenize "abc") = 3 ∧
    searchArticles kbC "abc" none 3 = [artC] := by
  refine ⟨by decide, by decide, by decide, by decide, by decide⟩

theorem scoreMatch_eq_zero {keywords : List String} {text : String}
    {tokens : List String}
    (h : ∀ t ∈ tokens,
      (∀ kw ∈ keywords, strIncludes kw t = false ∧ strIncludes t kw = false) ∧
      strIncludes (jsToLower text) t = false) :
    scoreMatch keywords text tokens = 0 := by
  rw [scoreMatch_as_sum, scoreSpec]
  apply List.sum_eq_zero
  intro x hx
  simp only [List.mem_map] at hx
  obtain ⟨t, ht, rfl⟩ := hx
  obtain ⟨hkw, htxt⟩ := h t ht
  have hany : keywords.any (fun kw => strIncludes kw t || strIncludes t kw) = false := by
    simp only [List.any_eq_false]
    intro kw hkwm
    simp [(hkw kw hkwm).1, (hkw kw hkwm).2]
  simp [hany, htxt]

/-- **C3** (amended): the claim holds once "appears as a substring in D's
keywords" is read as the code's bidirectional keyword match — if no query
token matches any keyword as a substring in either direction, and no token
appears as a substring of the document's lower-cased scoring text, then the
document's score is 0 and it is excluded from the corresponding search
results.  (The counterexample forces only the keyword direction and the
lower-casing of the text to be made explicit.) -/
theorem noMatch_score_zero_excluded (kb : KnowledgeBase) (query : String)
    (catA catP catG insurerName : Option String) (maxA maxP : Nat)
    (a : Article) (p : Policy) (g : ClaimsGuide) :
    ((∀ t ∈ tokenize query,
        (∀ kw ∈ a.keywords, strIncludes kw t = false ∧ strIncludes t kw = false) ∧
        strIncludes (jsToLower (articleScoreText a)) t = false) →
      articleScore query a = 0 ∧ a ∉ searchArticles kb query catA maxA) ∧
    ((∀ t ∈ tokenize query,
        (∀ kw ∈ p.keywords, strIncludes kw t = false ∧ strIncludes t kw = false) ∧
        strIncludes (jsToLower (policyScoreText p)) t = false) →
      policyScore query p = 0 ∧ p ∉ searchPolicies kb query catP insurerName maxP) ∧
    ((∀ t ∈ tokenize query,
        (∀ kw ∈ g.keywords, strIncludes kw t = false ∧ strIncludes t kw = false) ∧
        strIncludes (jsToLower (guideScoreText g)) t = false) →
      guideScore query g = 0 ∧ g ∉ searchClaimsGuides kb query catG) := by
  refine ⟨fun h => ?_, fun h => ?_, fun h => ?_⟩
  · have h0 : articleScore query a = 0 := scoreMatch_eq_zero h
    refine ⟨h0, fun hmem => ?_⟩
    rw [searchArticles_eq] at hmem
    have := (mem_rankPipeline_map hmem).2
    omega
  · have h0 : policyScore query p = 0 := scoreMatch_eq_zero h
    refine ⟨h0, fun hmem => ?_⟩
    rw [searchPolicies_eq] at hmem
    have := (mem_rankPipeline_map hmem).2
    omega
  · have h0 : guideScore query g = 0 := scoreMatch_eq_zero h
    refine ⟨h0, fun hmem => ?_⟩
    rw [searchClaimsGuides_eq] at hmem
    have := (mem_rankPipeline_map hmem).2
    omega

/-- An article with no overlap at all with the query `"hello"`. -/
def artW : Article := ⟨"w1", "zzz", "general", "", ["xyz"], [], [], ""⟩

/-- A corpus containing only `artW`. -/
def kbW : KnowledgeBase := ⟨[artW], [], [], []⟩

/-- Witness for the amended C3 at a concrete document and query. -/
theorem noMatch_score_zero_excluded_witness :
    articleScore "hello" artW = 0 ∧ artW ∉ searchArticles kbW "hello" none 3 :=
  (noMatch_score_zero_excluded kbW "hello" none none none none 3 5
    artW exPolicy exGuide).1 (by decide)

-- ─── C4: orchestration round cap ─────────────────────────

theorem runToolLoop_le (kb : KnowledgeBase) (env : Env) (engine : EngineOracle) :
    ∀ (n : Nat) (msgs : List MessageParam) (resp : EngineResponse) (i : Nat),
      maxIterations - i ≤ n → i ≤ maxIterations →
      (runToolLoop kb env engine msgs resp i).2 ≤ maxIterations ∧
      ((∀ ms, (engine ms).stop_reason = "tool_use") →
        resp.stop_reason = "tool_use" →
        (runToolLoop kb env engine msgs resp i).2 = maxIterations ∧
        (runToolLoop kb env engine msgs resp i).1.stop_reason = "tool_use") := by
  intro n
  induction n with
  | zero =>
    intro msgs resp i hn hi
    have hieq : i = maxIterations := by omega
    have hcond : ¬(resp.stop_reason = "tool_use" ∧ i < maxIterations) := by
      rintro ⟨-, hlt⟩
      omega
    rw [runToolLoop, dif_neg hcond]
    exact ⟨hi, fun _ hresp => ⟨hieq, hresp⟩⟩
  | succ n ih =>
    intro msgs resp i hn hi
    rw [runToolLoop]
    by_cases hcond : resp.stop_reason = "tool_use" ∧ i < maxIterations
    · rw [dif_pos hcond]
      refine ⟨(ih _ _ (i + 1) (by omega) (by omega)).1, fun hall _ => ?_⟩
      exact (ih _ _ (i + 1) (by omega) (by omega)).2 hall (hall _)
    · rw [dif_neg hcond]
      refine ⟨hi, fun hall hresp => ?_⟩
      have : ¬ i < maxIterations := fun hlt => hcond ⟨hresp, hlt⟩
      exact ⟨by omega, hresp⟩

/-- **C4**: for every question and every behaviour of the reasoning engine,
the orchestration loop never performs more than 5 capability-dispatch
rounds; and even if every engine response requests capability execution,
after the 5th dispatch round the loop terminates and the returned message
is exactly the text segments of the last response, joined with newlines
(possibly empty) — that last response still carries `stop_reason`
`"tool_use"`, i.e. termination came from the cap. -/
theorem orchestration_round_cap (kb : KnowledgeBase) (env : Env)
    (engine : EngineOracle) (history : List ConversationMessage)
    (message : String) :
    (processChat kb env engine history message).rounds ≤ 5 ∧
    ((∀ ms, (engine ms).stop_reason = "tool_use") →
      (processChat kb env engine history message).rounds = 5 ∧
      ∃ r : EngineResponse, r.stop_reason = "tool_use" ∧
        (processChat kb env engine history message).message =
          jsJoin "\n" (r.content.filterMap textOf?)) := by
  have h := runToolLoop_le kb env engine maxIterations
    (initialMessages history message)
    (engine (initialMessages history message)) 0 (by omega) (by omega)
  refine ⟨h.1, fun hall => ?_⟩
  obtain ⟨h5, hstop⟩ := h.2 hall (hall _)
  exact ⟨h5, ⟨(runToolLoop kb env engine (initialMessages history message)
    (engine (initialMessages history message)) 0).1, hstop, rfl⟩⟩

/-- A reasoning engine that requests a capability on every round. -/
def constToolEngine : EngineOracle := fun _ =>
  ⟨[ContentBlock.toolUse "t1" "book_consultation" {}], "tool_use"⟩

/-- Witness for C4: under an engine that always requests tools, the loop
performs exactly 5 dispatch rounds and stops. -/
theorem orchestration_round_cap_witness :
    (processChat exKb {} constToolEngine [] "hello").rounds = 5 :=
  ((orchestration_round_cap exKb {} constToolEngine [] "hello").2
    (fun _ => rfl)).1

-- ─── C5: unknown capability ──────────────────────────────

/-- **C5**: invoking the capability registry with any name not registered
in the catalog, on any raw parameter payload, returns the result string
`"Unknown tool: <name>"` reporting the unknown capability — a total
function in this model, never an unrecoverable fault, and never a silent
no-op (the result names the capability). -/
theorem executeTool_unknown_tool (kb : KnowledgeBase) (env : Env)
    (toolName : String) (toolInput : ToolInput) (h : toolName ∉ toolNames) :
    executeTool kb env toolName toolInput = "Unknown tool: " ++ toolName := by
  simp only [toolNames, List.mem_cons, List.not_mem_nil, or_false, not_or] at h
  obtain ⟨h1, h2, h3, h4, h5, h6, h7, h8⟩ := h
  simp only [executeTool, beq_iff_eq, h1, h2, h3, h4, h5, h6, h7, h8, if_false]

/-- Witness for C5 at a concrete unregistered name. -/
theorem executeTool_unknown_tool_witness :
    executeTool exKb {} "frobnicate" {} = "Unknown tool: frobnicate" :=
  executeTool_unknown_tool exKb {} "frobnicate" {} (by decide)

-- ─── C6: context assembly ────────────────────────────────

/-- The labeled excerpt one article contributes to the context block: its
first two pre-chunked segments. -/
def articleExcerpt (article : Article) : String :=
  "\n--- " ++ article.title ++ " (" ++ article.category ++ ") ---\n" ++
    jsJoin "\n\n" (article.chunks.take 2)

/-- The labeled excerpt one policy contributes: its precomputed summary. -/
def policyExcerpt (policy : Policy) : String :=
  "\n--- " ++ policy.name ++ " by " ++ policy.insurerName ++ " ---\n" ++
    policy.summary

/-- The labeled excerpt one claims guide contributes: the first 1500
characters of its raw content. -/
def guideExcerpt (guide : ClaimsGuide) : String :=
  "\n--- " ++ guide.title ++ " ---\n" ++ jsSubstringTo guide.content 1500

theorem ite_length_pos {β : Type} [DecidableEq β] (l : List β) (s : List String) :
    (if l.length > 0 then s else ([] : List String)) =
      if l = [] then [] else s := by
  by_cases h : l = [] <;> simp [h, List.length_pos]

/-- **C6**: `buildContext` searches the three collections with the fixed
per-collection caps 2 (articles), 3 (policies) and 3 (claims guides); the
returned text is the newline-join of the three sections in the fixed order
[articles, policies, claims], where a section with no hits contributes
nothing (no header), and each hit contributes its labeled excerpt — first
two chunks for an article, the summary for a policy, the first 1500
characters of content for a claims guide. -/
theorem buildContext_sections (kb : KnowledgeBase) (query : String) :
    (searchArticles kb query none 2).length ≤ 2 ∧
    (searchPolicies kb query none none 3).length ≤ 3 ∧
    (searchClaimsGuides kb query none).length ≤ 3 ∧
    buildContext kb query = jsJoin "\n"
      ((if searchArticles kb query none 2 = [] then []
        else "=== RELEVANT ARTICLES ===" ::
          (searchArticles kb query none 2).map articleExcerpt) ++
       (if searchPolicies kb query none none 3 = [] then []
        else "\n=== RELEVANT POLICIES ===" ::
          (searchPolicies kb query none none 3).map policyExcerpt) ++
       (if searchClaimsGuides kb query none = [] then []
        else "\n=== CLAIMS GUIDANCE ===" ::
          (searchClaimsGuides kb query none).map guideExcerpt)) := by
  refine ⟨?_, ?_, ?_, ?_⟩
  · rw [searchArticles_eq]; exact length_rankPipeline _ _
  · rw [searchPolicies_eq]; exact length_rankPipeline _ _
  · rw [searchClaimsGuides_eq]; exact length_rankPipeline _ _
  · show jsJoin "\n" _ = _
    rw [ite_length_pos, ite_length_pos, ite_length_pos]
    rfl

-- ─── C7: concrete health-coverage round trip ─────────────

theorem base_plan_le_25 (input : HealthCalcInput) :
    (calculateHealthCoverage input).base_plan_lakhs ≤ 25 := by
  unfold calculateHealthCoverage
  dsimp only
  split <;> split <;> norm_num

set_option maxHeartbeats 1000000 in
/-- **C7**: invoking the health-coverage capability (through its dispatch
coercion) with city_tier="metro", family_members=[35,32,5],
has_preexisting=false, corporate_cover=0 yields a recommended cover that is
a positive multiple of 5 lakh (it is 25) and a base plan of at most 25 lakh
(it is exactly 25). -/
theorem healthCoverage_metro_roundtrip :
    (∃ k : ℕ, 0 < k ∧
      (calculateHealthCoverage (healthInputOfTool
        { city_tier := some "metro", family_members := some [35, 32, 5],
          has_preexisting := some false,
          corporate_cover := some 0 })).recommended_cover_lakhs = 5 * k) ∧
    (calculateHealthCoverage (healthInputOfTool
      { city_tier := some "metro", family_members := some [35, 32, 5],
        has_preexisting := some false,
        corporate_cover := some 0 })).base_plan_lakhs ≤ 25 := by
  have hne : ("young" : String) ≠ "child" := by decide
  constructor
  · refine ⟨5, by norm_num, ?_⟩
    simp only [calculateHealthCoverage, healthInputOfTool, jsOrString, jsOrList,
      jsOrBool, jsOrNum, cityMultipliers, ageRiskFactor, getAgeGroup, maxAge?]
    norm_num [hne]
    rw [show ⌈(1011559559439 / 250000000000 : ℚ)⌉ = (5 : ℤ) from by
      rw [Int.ceil_eq_iff]; constructor <;> norm_num]
    norm_num
  · exact base_plan_le_25 _

-- ─── C8: dispatch defaulting ─────────────────────────────

theorem executeTool_health_congr (kb : KnowledgeBase) (env : Env)
    {t₁ t₂ : ToolInput} (h : healthInputOfTool t₁ = healthInputOfTool t₂) :
    executeTool kb env "calculate_health_coverage" t₁ =
      executeTool kb env "calculate_health_coverage" t₂ := by
  show healthResultString (calculateHealthCoverage (healthInputOfTool t₁)) =
    healthResultString (calculateHealthCoverage (healthInputOfTool t₂))
  rw [h]

/-- **C8**: the `calculate_health_coverage` dispatch function defaults
missing parameters instead of failing — for every raw payload, invoking it
with a missing corporate_cover, monthly_income, city_tier, family_members
or has_preexisting returns the same result as invoking it with the
documented default (0, 0, "metro", [30], false respectively) supplied. -/
theorem healthDispatch_defaults (kb : KnowledgeBase) (env : Env)
    (toolInput : ToolInput) :
    (executeTool kb env "calculate_health_coverage"
        { toolInput with corporate_cover := none } =
      executeTool kb env "calculate_health_coverage"
        { toolInput with corporate_cover := some 0 }) ∧
    (executeTool kb env "calculate_health_coverage"
        { toolInput with monthly_income := none } =
      executeTool kb env "calculate_health_coverage"
        { toolInput with monthly_income := some 0 }) ∧
    (executeTool kb env "calculate_health_coverage"
        { toolInput with city_tier := none } =
      executeTool kb env "calculate_health_coverage"
        { toolInput with city_tier := some "metro" }) ∧
    (executeTool kb env "calculate_health_coverage"
        { toolInput with family_members := none } =
      executeTool kb env "calculate_health_coverage"
        { toolInput with family_members := some [30] }) ∧
    (executeTool kb env "calculate_health_coverage"
        { toolInput with has_preexisting := none } =
      executeTool kb env "calculate_health_coverage"
        { toolInput with has_preexisting := some false }) := by
  refine ⟨?_, ?_, ?_, ?_, ?_⟩ <;>
    exact executeTool_health_congr kb env (by
      simp [healthInputOfTool, jsOrNum, jsOrString, jsOrBool, jsOrList])

-- ─── C9: term calculator bounds ──────────────────────────

theorem quarter_multiple_of_nonneg {gap : ℚ} (h : 0 ≤ gap) :
    ∃ k : ℕ, ((⌈gap / 2500000⌉ : ℤ) : ℚ) * (1/4) = (k : ℚ) * (1/4) := by
  refine ⟨(⌈gap / 2500000⌉).toNat, ?_⟩
  have hnn : (0 : ℤ) ≤ ⌈gap / 2500000⌉ :=
    Int.ceil_nonneg (div_nonneg h (by norm_num))
  have : ((⌈gap / 2500000⌉.toNat : ℤ) : ℚ) = ((⌈gap / 2500000⌉ : ℤ) : ℚ) := by
    rw [Int.toNat_of_nonneg hnn]
  rw [← this]
  push_cast
  ring

/-- **C9**: for every term-calculator input, the recommended tenure lies
between 20 and 40 years inclusive, and the recommended cover (in crore) is
a non-negative multiple of 0.25 = 1/4. -/
theorem termCoverage_bounds (input : TermCalcInput) :
    (∃ k : ℕ, (calculateTermCoverage input).recommended_cover_cr =
      (k : ℚ) * (1/4)) ∧
    20 ≤ (calculateTermCoverage input).recommended_tenure ∧
    (calculateTermCoverage input).recommended_tenure ≤ 40 := by
  refine ⟨?_, ?_, ?_⟩
  · exact quarter_multiple_of_nonneg (le_max_left 0 _)
  · exact le_min (by norm_num) (le_max_left _ _)
  · exact min_le_left _ _

-- ─── C10: history truncation ─────────────────────────────

/-- **C10**: the initial request to the reasoning engine consists of at
most the last 10 turns of the caller-supplied history followed by the new
user message — its length is `min |history| 10 + 1`, the part before the
final message is a suffix of the (converted) history, so any earlier turns
are dropped while order is preserved, and the last entry is the new user
message.  (The caller-supplied history is never mutated: the model is pure
and the source only reads it through `slice`.) -/
theorem initialRequest_history_truncation (history : List ConversationMessage)
    (message : String) :
    (initialMessages history message).length = min history.length 10 + 1 ∧
    List.IsSuffix (initialMessages history message).dropLast
      (history.map (fun m => ⟨m.role, MessageContent.text m.content⟩)) ∧
    (initialMessages history message).getLast? =
      some ⟨"user", MessageContent.text message⟩ := by
  unfold initialMessages
  refine ⟨?_, ?_, ?_⟩
  · simp only [List.length_append, List.length_map, List.length_drop,
      List.length_cons, List.length_nil]
    omega
  · rw [List.dropLast_concat, List.map_drop]
    exact List.drop_suffix _ _
  · exact List.getLast?_concat _

end Nevo
